import Mathlib

/-!
Verification of the macrometric diary backend (shallow embedding).

The Python services under src/backend/src/services are embedded as pure
Lean functions over an explicit database state.  Conventions:

* UUID columns are modelled as natural numbers drawn from a single
  generator (DB.nextId), matching the single uuid4 namespace of the source.
* SQL NUMERIC / Python Decimal / Python float arithmetic on macro amounts
  is modelled as exact rational arithmetic (the spec treats the stored
  2-decimal fixed point values as exact; binary float rounding is
  abstracted away).
* Python int(x) truncates toward zero; it is embedded as pyInt below.
* A Python service method that raises HTTPException is embedded as a
  function returning the error kind together with the (unchanged)
  database state: in the source every raise happens before any ORM
  mutation, and an aborted request never commits.
* An SQLAlchemy query over a table is embedded as List.filter / List.find?
  over the corresponding list of rows; order_by over a column is embedded
  as a structurally recursive insertion sort so that terms reduce.
-/

namespace Macrometric

/-- Python int() applied to a rational: truncation toward zero. -/
def pyInt (x : ℚ) : ℤ := if 0 ≤ x then ⌊x⌋ else -⌊-x⌋

/-- Model of src/models/custom_food.py: a user-private food row. -/
structure CustomFood where
  id : Nat
  user_id : Nat
  name : String
  brand : Option String
  serving_size : ℚ
  serving_unit : String
  calories : ℤ
  protein_g : ℚ
  carbs_g : ℚ
  fat_g : ℚ
deriving Repr, DecidableEq

/-- Model of src/models/food.py: a shared (global) food row. -/
structure FoodItem where
  id : Nat
  name : String
  brand : Option String
  serving_size : ℚ
  serving_unit : String
  calories : ℤ
  protein_g : ℚ
  carbs_g : ℚ
  fat_g : ℚ
deriving Repr, DecidableEq

/-- Model of src/models/diary.py: one diary entry row.  Dates are modelled
as integers (days). -/
structure DiaryEntry where
  id : Nat
  user_id : Nat
  category_id : Nat
  food_id : Nat
  entry_date : ℤ
  quantity : ℚ
deriving Repr, DecidableEq

/-- Model of src/models/meal_category.py. -/
structure MealCategory where
  id : Nat
  user_id : Nat
  name : String
  display_order : ℤ
  is_default : Bool
deriving Repr, DecidableEq

/-- Model of src/models/custom_meal.py: CustomMeal row. -/
structure CustomMeal where
  id : Nat
  user_id : Nat
  name : String
  is_deleted : Bool
deriving Repr, DecidableEq

/-- Model of src/models/custom_meal.py: CustomMealItem row. -/
structure CustomMealItem where
  id : Nat
  meal_id : Nat
  food_id : Nat
  quantity : ℚ
deriving Repr, DecidableEq

/-- Model of src/models/user.py (the fields the services read). -/
structure User where
  id : Nat
  email : String
  password_hash : String
  onboarding_completed : Bool
deriving Repr, DecidableEq

/-- Model of src/models/daily_goal.py. -/
structure DailyGoal where
  id : Nat
  user_id : Nat
  calories : Option ℤ
  protein_g : Option ℚ
  carbs_g : Option ℚ
  fat_g : Option ℚ
deriving Repr, DecidableEq

/-- The relational state the services run against. -/
structure DB where
  users : List User
  categories : List MealCategory
  customFoods : List CustomFood
  foodItems : List FoodItem
  entries : List DiaryEntry
  meals : List CustomMeal
  mealItems : List CustomMealItem
  goals : List DailyGoal
  nextId : Nat
deriving Repr, DecidableEq

/-- The polymorphic food reference of §4.1: DiaryService._get_food returns
either a CustomFood or a FoodItem object; callers read the shared
nutrition attributes off whichever object came back (duck typing). -/
inductive Food where
  | custom (cf : CustomFood)
  | item (fi : FoodItem)
deriving Repr, DecidableEq

def Food.foodId : Food → Nat
  | .custom cf => cf.id
  | .item fi => fi.id

def Food.name : Food → String
  | .custom cf => cf.name
  | .item fi => fi.name

def Food.brand : Food → Option String
  | .custom cf => cf.brand
  | .item fi => fi.brand

def Food.serving_size : Food → ℚ
  | .custom cf => cf.serving_size
  | .item fi => fi.serving_size

def Food.serving_unit : Food → String
  | .custom cf => cf.serving_unit
  | .item fi => fi.serving_unit

def Food.calories : Food → ℤ
  | .custom cf => cf.calories
  | .item fi => fi.calories

def Food.protein_g : Food → ℚ
  | .custom cf => cf.protein_g
  | .item fi => fi.protein_g

def Food.carbs_g : Food → ℚ
  | .custom cf => cf.carbs_g
  | .item fi => fi.carbs_g

def Food.fat_g : Food → ℚ
  | .custom cf => cf.fat_g
  | .item fi => fi.fat_g

/-- DiaryService._get_food (src/services/diary.py, lines 25-42): try the
CustomFood table first, then FoodItem; absence is an Option, never an
error.  CustomMealService._get_food (src/services/custom_meal.py, lines
232-249) is the identical query pair. -/
def getFood (db : DB) (food_id : Nat) : Option Food :=
  match db.customFoods.find? (fun cf => cf.id == food_id) with
  | some cf => some (Food.custom cf)
  | none => (db.foodItems.find? (fun fi => fi.id == food_id)).map Food.item

/-- The totals dictionary built by DiaryService.calculate_daily_totals:
calories is an int accumulator, the three macros are Decimal. -/
structure Macros where
  calories : ℤ
  protein_g : ℚ
  carbs_g : ℚ
  fat_g : ℚ
deriving Repr, DecidableEq

def Macros.zero : Macros := ⟨0, 0, 0, 0⟩

def Macros.add (a b : Macros) : Macros :=
  ⟨a.calories + b.calories, a.protein_g + b.protein_g,
   a.carbs_g + b.carbs_g, a.fat_g + b.fat_g⟩

/-- Elementwise sum of a list of macro records. -/
def sumMacros (l : List Macros) : Macros := l.foldr Macros.add Macros.zero

/-- DiaryService.calculate_entry_macros (src/services/diary.py, lines
92-100): int(food.calories * quantity) and exact Decimal products for the
three macros. -/
def calculate_entry_macros (food : Food) (quantity : ℚ) : Macros :=
  { calories := pyInt ((food.calories : ℚ) * quantity)
  , protein_g := food.protein_g * quantity
  , carbs_g := food.carbs_g * quantity
  , fat_g := food.fat_g * quantity }

/-- DiaryService.calculate_daily_totals (src/services/diary.py, lines
102-122): fold over the entries, skipping entries whose food does not
resolve, accumulating int(food.calories * quantity) and the Decimal
products. -/
def calculate_daily_totals (db : DB) (entries : List DiaryEntry) : Macros :=
  entries.foldl
    (fun totals e =>
      match getFood db e.food_id with
      | none => totals
      | some food =>
        { calories := totals.calories + pyInt ((food.calories : ℚ) * e.quantity)
        , protein_g := totals.protein_g + food.protein_g * e.quantity
        , carbs_g := totals.carbs_g + food.carbs_g * e.quantity
        , fat_g := totals.fat_g + food.fat_g * e.quantity })
    Macros.zero

/-- The diary query of get_diary: all entries of (user, date). -/
def entriesFor (db : DB) (user_id : Nat) (diary_date : ℤ) : List DiaryEntry :=
  db.entries.filter (fun e => e.user_id == user_id && e.entry_date == diary_date)

/-- Specification-side contribution of a single entry to the daily totals:
the macros of the resolved food at the entry quantity, zero when the food
resolves in neither table. -/
def entryMacros (db : DB) (e : DiaryEntry) : Macros :=
  match getFood db e.food_id with
  | none => Macros.zero
  | some food => calculate_entry_macros food e.quantity

/-- Insertion step of a structurally recursive insertion sort. -/
def insertLe (le : α → α → Bool) (a : α) : List α → List α
  | [] => [a]
  | b :: t => if le a b then a :: b :: t else b :: insertLe le a t

/-- Insertion sort; embeds order_by over a column (terms reduce, unlike
the well-founded merge sort). -/
def sortLe (le : α → α → Bool) (l : List α) : List α := l.foldr (insertLe le) []

/-- The food snapshot dictionary built by
DiaryService._get_entry_response_dict. -/
structure FoodView where
  food_id : Nat
  name : String
  brand : Option String
  serving_size : ℚ
  serving_unit : String
  calories : ℤ
  protein_g : ℚ
  carbs_g : ℚ
  fat_g : ℚ
deriving Repr, DecidableEq

/-- One entry record of the get_diary response. -/
structure EntryView where
  entry_id : Nat
  food : FoodView
  quantity : ℚ
deriving Repr, DecidableEq

/-- DiaryService._get_entry_response_dict (src/services/diary.py, lines
44-79): resolved food snapshot, or the zero-macro deleted placeholder. -/
def entryResponse (db : DB) (e : DiaryEntry) : EntryView :=
  match getFood db e.food_id with
  | none =>
    { entry_id := e.id
    , food := ⟨e.food_id, "[Deleted Food]", none, 0, "", 0, 0, 0, 0⟩
    , quantity := e.quantity }
  | some food =>
    { entry_id := e.id
    , food := ⟨food.foodId, food.name, food.brand, food.serving_size,
               food.serving_unit, food.calories, food.protein_g,
               food.carbs_g, food.fat_g⟩
    , quantity := e.quantity }

/-- One category block of the get_diary response. -/
structure CategoryView where
  category_id : Nat
  name : String
  display_order : ℤ
  is_default : Bool
  entries : List EntryView
deriving Repr, DecidableEq

/-- The goals dictionary of the get_diary response. -/
structure GoalsView where
  calories : Option ℤ
  protein_g : Option ℚ
  carbs_g : Option ℚ
  fat_g : Option ℚ
deriving Repr, DecidableEq

/-- The get_diary response. -/
structure DiaryView where
  diary_date : ℤ
  categories : List CategoryView
  totals : Macros
  goals : Option GoalsView
deriving Repr, DecidableEq

/-- DiaryService.group_entries_by_category followed by the
entries_by_category.get(category.id, []) lookup of get_diary: the
defaultdict grouping preserves the relative order of entries, so the list
attached to a category is exactly the filter of the entry list by that
category id. -/
def entriesOfCategory (entries : List DiaryEntry) (category_id : Nat) : List DiaryEntry :=
  entries.filter (fun e => e.category_id == category_id)

/-- DiaryService.get_diary (src/services/diary.py, lines 132-197). -/
def get_diary (db : DB) (user_id : Nat) (diary_date : ℤ) : DiaryView :=
  let categories :=
    sortLe (fun a b => decide (a.display_order ≤ b.display_order))
      (db.categories.filter (fun c => c.user_id == user_id))
  let entries := entriesFor db user_id diary_date
  { diary_date := diary_date
  , categories := categories.map (fun c =>
      { category_id := c.id
      , name := c.name
      , display_order := c.display_order
      , is_default := c.is_default
      , entries := (entriesOfCategory entries c.id).map (entryResponse db) })
  , totals := calculate_daily_totals db entries
  , goals := (db.goals.find? (fun g => g.user_id == user_id)).map
      (fun g => ⟨g.calories, g.protein_g, g.carbs_g, g.fat_g⟩) }

/-- The totals dictionary of CustomMealService.get_meal_totals
(src/services/custom_meal.py, lines 251-280): the calories accumulator
starts as the int 0, but `totals["calories"] += food.calories * quantity`
promotes it to a Python float, so all four components are numeric here;
no per-item rounding happens in this function. -/
structure MealTotals where
  calories : ℚ
  protein_g : ℚ
  carbs_g : ℚ
  fat_g : ℚ
deriving Repr, DecidableEq

def MealTotals.zero : MealTotals := ⟨0, 0, 0, 0⟩

def MealTotals.add (a b : MealTotals) : MealTotals :=
  ⟨a.calories + b.calories, a.protein_g + b.protein_g,
   a.carbs_g + b.carbs_g, a.fat_g + b.fat_g⟩

/-- Elementwise sum of a list of meal-total records. -/
def sumMealTotals (l : List MealTotals) : MealTotals := l.foldr MealTotals.add MealTotals.zero

/-- The ORM relationship CustomMeal.items: the CustomMealItem rows whose
meal_id is the meal's id. -/
def mealItemsOf (db : DB) (meal : CustomMeal) : List CustomMealItem :=
  db.mealItems.filter (fun it => it.meal_id == meal.id)

/-- CustomMealService.get_meal_totals (src/services/custom_meal.py, lines
251-280): fold over the meal's items, skipping items whose food no longer
resolves, accumulating food.calories * quantity (unrounded) and the three
macro products. -/
def get_meal_totals (db : DB) (meal : CustomMeal) : MealTotals :=
  (mealItemsOf db meal).foldl
    (fun totals it =>
      match getFood db it.food_id with
      | none => totals
      | some food =>
        { calories := totals.calories + (food.calories : ℚ) * it.quantity
        , protein_g := totals.protein_g + food.protein_g * it.quantity
        , carbs_g := totals.carbs_g + food.carbs_g * it.quantity
        , fat_g := totals.fat_g + food.fat_g * it.quantity })
    MealTotals.zero

/-- The claim's reading of get_meal_totals, written from the spec words
"calories = floor(food.calories * quantity) (integer)": identical to
get_meal_totals except that each item's calories contribution is floored.
Stated only for comparison against the source function. -/
def get_meal_totals_flooredPerItem (db : DB) (meal : CustomMeal) : MealTotals :=
  (mealItemsOf db meal).foldl
    (fun totals it =>
      match getFood db it.food_id with
      | none => totals
      | some food =>
        { calories := totals.calories + ((⌊(food.calories : ℚ) * it.quantity⌋ : ℤ) : ℚ)
        , protein_g := totals.protein_g + food.protein_g * it.quantity
        , carbs_g := totals.carbs_g + food.carbs_g * it.quantity
        , fat_g := totals.fat_g + food.fat_g * it.quantity })
    MealTotals.zero

/-- Specification-side contribution of a single meal item: the food's
per-serving values times the item quantity, zero when the food does not
resolve. -/
def mealItemMacros (db : DB) (it : CustomMealItem) : MealTotals :=
  match getFood db it.food_id with
  | none => MealTotals.zero
  | some food =>
    ⟨(food.calories : ℚ) * it.quantity, food.protein_g * it.quantity,
     food.carbs_g * it.quantity, food.fat_g * it.quantity⟩

/-- The error taxonomy of §7, as raised by the services via HTTPException:
invalidInput is 422, notFound 404, conflict 409, forbidden 403. -/
inductive ApiError where
  | invalidInput
  | notFound
  | conflict
  | forbidden
deriving Repr, DecidableEq

/-- CategoryService.get_categories (src/services/category.py, lines
18-25): the caller's categories ordered by display_order. -/
def get_categories (db : DB) (user_id : Nat) : List MealCategory :=
  sortLe (fun a b => decide (a.display_order ≤ b.display_order))
    (db.categories.filter (fun c => c.user_id == user_id))

/-- CategoryService.get_category (src/services/category.py, lines 27-36):
lookup by id and owner together. -/
def get_category (db : DB) (user_id category_id : Nat) : Option MealCategory :=
  db.categories.find? (fun c => c.id == category_id && c.user_id == user_id)

/-- The dependent-entry count taken by delete_category: diary entries of
the category, regardless of their user. -/
def categoryEntryCount (db : DB) (category_id : Nat) : Nat :=
  (db.entries.filter (fun e => e.category_id == category_id)).length

/-- CategoryService.delete_category (src/services/category.py, lines
148-188).  A raise in the source aborts the request before the ORM delete,
so the error cases return the state unchanged. -/
def delete_category (db : DB) (user_id category_id : Nat) :
    Except ApiError Bool × DB :=
  match get_category db user_id category_id with
  | none => (Except.ok false, db)
  | some category =>
    if 0 < categoryEntryCount db category_id then (Except.error ApiError.conflict, db)
    else if category.is_default then (Except.error ApiError.forbidden, db)
    else (Except.ok true,
      { db with categories := db.categories.filter (fun c => !(c.id == category_id)) })

/-- CategoryService.reorder_categories (src/services/category.py, lines
190-236): set-equality check, duplicate check, then 1-based assignment of
display_order by list position.  Both raises happen before any mutation. -/
def reorder_categories (db : DB) (user_id : Nat) (category_ids : List Nat) :
    Except ApiError Unit × DB :=
  let user_categories := get_categories db user_id
  let user_category_ids := (user_categories.map (fun c => c.id)).toFinset
  let provided_ids := category_ids.toFinset
  if provided_ids ≠ user_category_ids then (Except.error ApiError.invalidInput, db)
  else if category_ids.length ≠ provided_ids.card then (Except.error ApiError.invalidInput, db)
  else (Except.ok (),
    { db with categories := db.categories.map (fun c =>
        if c.user_id == user_id then
          { c with display_order := (category_ids.indexOf c.id : ℤ) + 1 }
        else c) })

/-- Lexicographic comparison of the character sequences of two strings;
models the collation of an SQL ORDER BY over a name column (written out
so that terms reduce, unlike the iterator-based core comparison). -/
def strLeChars : List Char → List Char → Bool
  | [], _ => true
  | _ :: _, [] => false
  | a :: as, b :: bs => if a = b then strLeChars as bs else decide (a < b)

def strLe (a b : String) : Bool := strLeChars a.toList b.toList

/-- Python str.lower(), character by character (the iterator-based core
String.toLower does not reduce; on the ASCII data of this service the two
agree). -/
def strLower (s : String) : String := String.mk (s.data.map Char.toLower)

/-- Python str.strip(): drop whitespace from both ends. -/
def strTrim (s : String) : String :=
  String.mk (((s.data.dropWhile Char.isWhitespace).reverse.dropWhile Char.isWhitespace).reverse)

/-- DiaryService.validate_quantity (src/services/diary.py, lines 81-84). -/
def validate_quantity (quantity : ℚ) : Bool := decide (0 < quantity)

/-- DiaryService.validate_entry_date (src/services/diary.py, lines 86-90):
the entry date may be at most one year after today. -/
def validate_entry_date (today entry_date : ℤ) : Bool := decide (entry_date ≤ today + 365)

/-- DiaryService.add_entry (src/services/diary.py, lines 199-257): quantity
check, date check, category ownership lookup (id and user together, so a
foreign or missing category is the same "not found"), food resolution, and
only then the insert.  Every raise precedes the insert, so error cases
return the state unchanged. -/
def add_entry (db : DB) (today : ℤ) (user_id : Nat) (entry_date : ℤ)
    (category_id food_id : Nat) (quantity : ℚ) : Except ApiError DiaryEntry × DB :=
  if !validate_quantity quantity then (Except.error ApiError.invalidInput, db)
  else if !validate_entry_date today entry_date then (Except.error ApiError.invalidInput, db)
  else match db.categories.find? (fun c => c.id == category_id && c.user_id == user_id) with
    | none => (Except.error ApiError.notFound, db)
    | some _ =>
      match getFood db food_id with
      | none => (Except.error ApiError.notFound, db)
      | some _ =>
        let entry : DiaryEntry :=
          ⟨db.nextId, user_id, category_id, food_id, entry_date, quantity⟩
        (Except.ok entry,
         { db with entries := db.entries ++ [entry], nextId := db.nextId + 1 })

/-- AuthService.validate_password (src/services/auth.py, lines 30-38), the
regex (at least 8 characters, at least one letter, at least one digit) for
newline-free input; [A-Za-z] and the digit class are exactly Char.isAlpha
and Char.isDigit on ASCII text. -/
def validate_password (password : String) : Bool :=
  decide (8 ≤ password.length)
    && password.data.any Char.isAlpha && password.data.any Char.isDigit

/-- AuthService.get_user_by_email (src/services/auth.py, lines 40-42). -/
def get_user_by_email (db : DB) (email : String) : Option User :=
  db.users.find? (fun u => u.email == strLower email)

/-- AuthService._create_default_categories (src/services/auth.py, lines
102-125): Breakfast, Lunch, Dinner with display_order 1, 2, 3, all
flagged is_default. -/
def create_default_categories (db : DB) (user_id : Nat) : DB :=
  { db with
    categories := db.categories ++
      [⟨db.nextId, user_id, "Breakfast", 1, true⟩,
       ⟨db.nextId + 1, user_id, "Lunch", 2, true⟩,
       ⟨db.nextId + 2, user_id, "Dinner", 3, true⟩]
  , nextId := db.nextId + 3 }

/-- AuthService.register (src/services/auth.py, lines 48-100): normalize
the email, reject an existing address (Conflict) or an invalid password
(InvalidInput), create the user, then create the default categories.
Token issuance is an external collaborator and is not modelled. -/
def register (db : DB) (hash : String → String) (email password : String) :
    Except ApiError (DB × Nat) :=
  let email2 := strTrim (strLower email)
  match get_user_by_email db email2 with
  | some _ => Except.error ApiError.conflict
  | none =>
    if !validate_password password then Except.error ApiError.invalidInput
    else
      let uid := db.nextId
      let db1 : DB :=
        { db with
          users := db.users ++ [⟨uid, email2, hash password, false⟩]
        , nextId := db.nextId + 1 }
      Except.ok (create_default_categories db1 uid, uid)

/-- CustomMealService.get_custom_meals (src/services/custom_meal.py,
lines 105-121): the user's meals, optionally without the soft-deleted
ones, ordered by name. -/
def get_custom_meals (db : DB) (user_id : Nat) (include_deleted : Bool) : List CustomMeal :=
  let base := db.meals.filter (fun m => m.user_id == user_id)
  let visible := if include_deleted then base else base.filter (fun m => !m.is_deleted)
  sortLe (fun a b => strLe a.name b.name) visible

/-- CustomMealService.get_custom_meal (src/services/custom_meal.py, lines
123-142): lookup by id and owner, excluding soft-deleted meals. -/
def get_custom_meal (db : DB) (user_id meal_id : Nat) : Option CustomMeal :=
  db.meals.find? (fun m => m.id == meal_id && m.user_id == user_id && !m.is_deleted)

/-- CustomMealService.delete_custom_meal (src/services/custom_meal.py,
lines 211-230): soft delete — flip is_deleted on the resolved meal row,
touch nothing else. -/
def delete_custom_meal (db : DB) (user_id meal_id : Nat) : Bool × DB :=
  match get_custom_meal db user_id meal_id with
  | none => (false, db)
  | some m =>
    (true,
     { db with meals := db.meals.map (fun x =>
         if x.id == m.id then { x with is_deleted := true } else x) })

/-- Model of USDAFood (src/services/nutrition_api.py, lines 12-25): one
result row of the external nutrition provider. -/
structure UsdaFood where
  fdc_id : String
  name : String
  calories : ℚ
  protein_g : ℚ
  carbs_g : ℚ
  fat_g : ℚ
  serving_size : ℚ
  serving_unit : String
deriving Repr, DecidableEq

/-- FoodSearchResult (src/services/food_search.py, lines 14-51): the
unified search row; id is the source-prefixed composite identifier. -/
structure FoodSearchResult where
  id : String
  name : String
  source : String
  calories : ℚ
  protein_g : ℚ
  carbs_g : ℚ
  fat_g : ℚ
  serving_size : ℚ
  serving_unit : String
deriving Repr, DecidableEq

/-- The process-wide FoodSearchService._cache dictionary: key to
(results, timestamp).  A Python dict assignment is modelled by prepending
the new binding; lookup takes the newest one. -/
def SearchCache : Type := List (String × (List FoodSearchResult × Nat))

def cacheLookup (cache : SearchCache) (key : String) :
    Option (List FoodSearchResult × Nat) :=
  ((cache : List _).find? (fun kv => kv.1 == key)).map (fun kv => kv.2)

def cacheStore (cache : SearchCache) (key : String)
    (v : List FoodSearchResult × Nat) : SearchCache :=
  ((key, v) :: (cache : List _) : List _)

/-- FoodSearchService._cache_ttl: 15 minutes, in seconds. -/
def cache_ttl : Nat := 15 * 60

/-- Containment of a character sequence in another, at any position. -/
def charsContains (needle : List Char) : List Char → Bool
  | [] => needle.isEmpty
  | c :: t => needle.isPrefixOf (c :: t) || charsContains needle t

/-- The SQL ILIKE filter CustomFood.name.ilike(f"%term%"): the (already
lowercased) term occurs in the name, case-insensitively. -/
def ilikeContains (name term : String) : Bool :=
  charsContains term.data (strLower name).data

/-- CustomFoodsService.search_custom_foods (src/services/custom_foods.py,
lines 207-231): the caller's custom foods whose name contains the
stripped, lowercased query, ordered by name. -/
def search_custom_foods (db : DB) (user_id : Nat) (query : String) : List CustomFood :=
  if (strTrim query).length == 0 then []
  else
    let search_term := strLower (strTrim query)
    sortLe (fun a b => strLe a.name b.name)
      (db.customFoods.filter (fun cf =>
        cf.user_id == user_id && ilikeContains cf.name search_term))

/-- The custom branch of a search row (src/services/food_search.py, lines
100-112). -/
def mkCustomResult (cf : CustomFood) : FoodSearchResult :=
  ⟨"custom:" ++ toString cf.id, cf.name, "custom", (cf.calories : ℚ),
   cf.protein_g, cf.carbs_g, cf.fat_g, cf.serving_size, cf.serving_unit⟩

/-- The usda branch of a search row (src/services/food_search.py, lines
117-130). -/
def mkUsdaResult (f : UsdaFood) : FoodSearchResult :=
  ⟨"usda:" ++ f.fdc_id, f.name, "usda", f.calories,
   f.protein_g, f.carbs_g, f.fat_g, f.serving_size, f.serving_unit⟩

/-- The result-building part of FoodSearchService.search (lines 94-133):
the caller's custom matches first, then the external results; the external
client is an oracle parameter, and its failure (none) is swallowed so the
custom part still comes back.  No truncation happens here. -/
def searchUncached (db : DB) (usda : String → Nat → Option (List UsdaFood))
    (query : String) (user_id : Option Nat) (limit : Nat) : List FoodSearchResult :=
  let customResults := match user_id with
    | some uid => (search_custom_foods db uid query).map mkCustomResult
    | none => []
  let usdaResults := match usda query limit with
    | some fs => fs.map mkUsdaResult
    | none => []
  customResults ++ usdaResults

/-- FoodSearchService.search (src/services/food_search.py, lines 73-138):
empty-query short-circuit; cache probe under the user-independent key
"lowercased query:limit" with the 15-minute TTL, answering the cached
(untruncated) list on a hit; otherwise build results, cache the full list,
and return it truncated to limit. -/
def search (db : DB) (usda : String → Nat → Option (List UsdaFood))
    (cache : SearchCache) (now : Nat) (query : String) (user_id : Option Nat)
    (limit : Nat) : List FoodSearchResult × SearchCache :=
  if (strTrim query).length == 0 then ([], cache)
  else
    let cache_key := strLower query ++ ":" ++ toString limit
    match cacheLookup cache cache_key with
    | some (cached_data, cached_time) =>
      if now - cached_time < cache_ttl then (cached_data, cache)
      else
        let results := searchUncached db usda query user_id limit
        (results.take limit, cacheStore cache cache_key (results, now))
    | none =>
      let results := searchUncached db usda query user_id limit
      (results.take limit, cacheStore cache cache_key (results, now))

/-! Concrete fixtures used by the witness theorems. -/

/-- A user-private custom food (200 kcal, 10/20/5 macros per serving). -/
def cfOats : CustomFood := ⟨1, 1, "Oats", none, 100, "g", 200, 10, 20, 5⟩

/-- A shared food item with 3 kcal per serving, so that a quantity of 1/2
exercises the integer truncation. -/
def fiRice : FoodItem := ⟨2, "Rice", none, 100, "g", 3, 1, 2, 1⟩

/-- A database holding one user with one category, both food tables
populated, and three diary entries on date 0: one custom food, one shared
food, and one dangling food reference (id 99 resolves nowhere). -/
def dbDiary : DB :=
  { users := [⟨1, "a@example.com", "h", false⟩]
  , categories := [⟨10, 1, "Breakfast", 1, true⟩]
  , customFoods := [cfOats]
  , foodItems := [fiRice]
  , entries := [⟨100, 1, 10, 1, 0, mkRat 3 2⟩, ⟨101, 1, 10, 2, 0, mkRat 1 2⟩,
                ⟨102, 1, 10, 99, 0, 1⟩]
  , meals := []
  , mealItems := []
  , goals := []
  , nextId := 200 }

/-- A food for the scaling witness. -/
def foodEgg : Food := Food.item ⟨3, "Egg", none, 50, "g", 155, 13, 1, 11⟩

/-- A meal preset owned by user 1. -/
def mealSnack : CustomMeal := ⟨50, 1, "Snack", false⟩

/-- A database with two categories for user 1 — a default one holding one
diary entry, and a non-default empty one — plus a category of user 2. -/
def dbCats : DB :=
  { users := [⟨1, "a@example.com", "h", false⟩, ⟨2, "b@example.com", "h", false⟩]
  , categories := [⟨10, 1, "Breakfast", 1, true⟩, ⟨11, 1, "Snacks", 2, false⟩,
                   ⟨12, 2, "Breakfast", 1, true⟩]
  , customFoods := [cfOats]
  , foodItems := []
  , entries := [⟨100, 1, 10, 1, 0, 1⟩]
  , meals := []
  , mealItems := []
  , goals := []
  , nextId := 200 }

/-- A database where mealSnack holds half a serving of the 3-kcal food:
the unrounded calories total is 3/2 while per-item flooring gives 1. -/
def dbMeal : DB :=
  { users := [⟨1, "a@example.com", "h", false⟩]
  , categories := [⟨20, 1, "Lunch", 1, true⟩]
  , customFoods := []
  , foodItems := [fiRice]
  , entries := [⟨80, 1, 20, 2, 0, 1⟩]
  , meals := [mealSnack]
  , mealItems := [⟨60, 50, 2, mkRat 1 2⟩]
  , goals := []
  , nextId := 70 }

/-- An empty database, about to receive its first registration. -/
def dbReg : DB :=
  { users := [], categories := [], customFoods := [], foodItems := []
  , entries := [], meals := [], mealItems := [], goals := [], nextId := 1 }

/-- Custom foods of user 1 matching the query "apple". -/
def cfApplePie : CustomFood := ⟨5, 1, "Apple Pie", none, 100, "g", 300, 2, 40, 15⟩

def cfAppleJuice : CustomFood := ⟨6, 1, "Apple Juice", none, 100, "g", 46, 0, 11, 0⟩

/-- A custom food of user 2, also matching "apple". -/
def cfAppleCrumble : CustomFood := ⟨7, 2, "Apple Crumble", none, 100, "g", 250, 3, 35, 10⟩

/-- A database where users 1 and 2 both own apple-named custom foods. -/
def dbSearch : DB :=
  { users := [⟨1, "a@example.com", "h", false⟩, ⟨2, "b@example.com", "h", false⟩]
  , categories := []
  , customFoods := [cfApplePie, cfAppleJuice, cfAppleCrumble]
  , foodItems := []
  , entries := []
  , meals := []
  , mealItems := []
  , goals := []
  , nextId := 90 }

/-- An external client that always answers two usda rows. -/
def usdaTwo : String → Nat → Option (List UsdaFood) :=
  fun _ _ => some
    [⟨"100", "Apple raw", 52, 0, 14, 0, 100, "g"⟩,
     ⟨"101", "Apple dried", 240, 1, 60, 0, 100, "g"⟩]

theorem macrosAddZero (a : Macros) : Macros.add a Macros.zero = a := by
  cases a; simp [Macros.add, Macros.zero]

theorem macrosZeroAdd (a : Macros) : Macros.add Macros.zero a = a := by
  cases a; simp [Macros.add, Macros.zero]

theorem macrosAddAssoc (a b c : Macros) :
    Macros.add (Macros.add a b) c = Macros.add a (Macros.add b c) := by
  cases a; cases b; cases c
  simp only [Macros.add, Macros.mk.injEq]
  exact ⟨by ring, by ring, by ring, by ring⟩

/-- The daily-totals fold equals the elementwise sum of per-entry macro
records. -/
theorem calculate_daily_totals_eq_sum (db : DB) (entries : List DiaryEntry) :
    calculate_daily_totals db entries = sumMacros (entries.map (entryMacros db)) := by
  have step : ∀ (init : Macros) (l : List DiaryEntry),
      l.foldl
        (fun totals e =>
          match getFood db e.food_id with
          | none => totals
          | some food =>
            { calories := totals.calories + pyInt ((food.calories : ℚ) * e.quantity)
            , protein_g := totals.protein_g + food.protein_g * e.quantity
            , carbs_g := totals.carbs_g + food.carbs_g * e.quantity
            , fat_g := totals.fat_g + food.fat_g * e.quantity })
        init = Macros.add init (sumMacros (l.map (entryMacros db))) := by
    intro init l
    induction l generalizing init with
    | nil => simp [sumMacros, macrosAddZero]
    | cons e t ih =>
      have hstep :
          (match getFood db e.food_id with
            | none => init
            | some food =>
              { calories := init.calories + pyInt ((food.calories : ℚ) * e.quantity)
              , protein_g := init.protein_g + food.protein_g * e.quantity
              , carbs_g := init.carbs_g + food.carbs_g * e.quantity
              , fat_g := init.fat_g + food.fat_g * e.quantity } : Macros)
            = Macros.add init (entryMacros db e) := by
        cases hf : getFood db e.food_id with
        | none => simp [entryMacros, hf, macrosAddZero]
        | some food =>
          simp [entryMacros, hf, Macros.add, calculate_entry_macros]
      simp only [List.foldl_cons, List.map_cons, sumMacros, List.foldr_cons, hstep]
      rw [ih]
      simp [sumMacros, macrosAddAssoc]
  simpa [calculate_daily_totals, macrosZeroAdd] using step Macros.zero entries

theorem pyInt_eq_floor {x : ℚ} (hx : 0 ≤ x) : pyInt x = ⌊x⌋ := by
  simp [pyInt, hx]

theorem pyInt_intCast (n : ℤ) : pyInt ((n : ℚ)) = n := by
  unfold pyInt
  by_cases h : (0 : ℚ) ≤ (n : ℚ)
  · rw [if_pos h, Int.floor_intCast]
  · rw [if_neg h, ← Int.cast_neg, Int.floor_intCast, neg_neg]

/-- A food returned by the two-table probe is a row of one of the two
tables. -/
theorem getFood_mem {db : DB} {food_id : Nat} {food : Food}
    (h : getFood db food_id = some food) :
    (∃ cf ∈ db.customFoods, food = Food.custom cf)
      ∨ (∃ fi ∈ db.foodItems, food = Food.item fi) := by
  unfold getFood at h
  cases hc : db.customFoods.find? (fun cf => cf.id == food_id) with
  | some cf =>
    rw [hc] at h
    exact Or.inl ⟨cf, List.mem_of_find?_eq_some hc, by
      simpa using h.symm⟩
  | none =>
    rw [hc] at h
    cases hi : db.foodItems.find? (fun fi => fi.id == food_id) with
    | some fi =>
      rw [hi] at h
      exact Or.inr ⟨fi, List.mem_of_find?_eq_some hi, by
        simpa using h.symm⟩
    | none => rw [hi] at h; simp at h

/-- When all rows of both food tables carry nonnegative calories, so does
any resolved food. -/
theorem getFood_calories_nonneg {db : DB} {food_id : Nat} {food : Food}
    (hcal : ∀ cf ∈ db.customFoods, 0 ≤ cf.calories)
    (hfi : ∀ fi ∈ db.foodItems, 0 ≤ fi.calories)
    (h : getFood db food_id = some food) : 0 ≤ food.calories := by
  rcases getFood_mem h with ⟨cf, hm, rfl⟩ | ⟨fi, hm, rfl⟩
  · exact hcal cf hm
  · exact hfi fi hm

/-- C1: for every user and date, the daily totals computed by
calculate_daily_totals — and surfaced unchanged as the totals field of the
get_diary response — equal the elementwise sum over the diary entries of
that (user, date) of the macros of the entry's resolved food at the entry
quantity; the calories contribution of each resolving entry is the floor
of food.calories * quantity (the Python int() truncation agrees with the
floor because calories and quantities are nonnegative); an entry whose
food id resolves in neither the CustomFood nor the FoodItem table
contributes exactly the zero macro record, and resolution failure is an
Option, never an error. -/
theorem daily_totals_spec (db : DB) (user_id : Nat) (diary_date : ℤ)
    (hcal : ∀ cf ∈ db.customFoods, 0 ≤ cf.calories)
    (hfi : ∀ fi ∈ db.foodItems, 0 ≤ fi.calories)
    (hq : ∀ e ∈ db.entries, 0 ≤ e.quantity) :
    (get_diary db user_id diary_date).totals
        = calculate_daily_totals db (entriesFor db user_id diary_date)
    ∧ calculate_daily_totals db (entriesFor db user_id diary_date)
        = sumMacros ((entriesFor db user_id diary_date).map (entryMacros db))
    ∧ (∀ e ∈ entriesFor db user_id diary_date, ∀ food,
        getFood db e.food_id = some food →
        (entryMacros db e).calories = ⌊(food.calories : ℚ) * e.quantity⌋)
    ∧ (∀ e : DiaryEntry, getFood db e.food_id = none → entryMacros db e = Macros.zero) := by
  refine ⟨rfl, calculate_daily_totals_eq_sum db _, ?_, ?_⟩
  · intro e he food hf
    have heq : 0 ≤ e.quantity := hq e (List.mem_of_mem_filter he)
    have hcq : 0 ≤ (food.calories : ℚ) * e.quantity :=
      mul_nonneg (by exact_mod_cast getFood_calories_nonneg hcal hfi hf) heq
    simp [entryMacros, hf, calculate_entry_macros, pyInt_eq_floor hcq]
  · intro e hf
    simp [entryMacros, hf]

theorem daily_totals_spec_witness :
    ((∀ cf ∈ dbDiary.customFoods, 0 ≤ cf.calories)
      ∧ (∀ fi ∈ dbDiary.foodItems, 0 ≤ fi.calories)
      ∧ (∀ e ∈ dbDiary.entries, 0 ≤ e.quantity))
    ∧ ((get_diary dbDiary 1 0).totals
          = calculate_daily_totals dbDiary (entriesFor dbDiary 1 0)
        ∧ calculate_daily_totals dbDiary (entriesFor dbDiary 1 0)
          = sumMacros ((entriesFor dbDiary 1 0).map (entryMacros dbDiary))
        ∧ (∀ e ∈ entriesFor dbDiary 1 0, ∀ food,
            getFood dbDiary e.food_id = some food →
            (entryMacros dbDiary e).calories = ⌊(food.calories : ℚ) * e.quantity⌋)
        ∧ (∀ e : DiaryEntry, getFood dbDiary e.food_id = none →
            entryMacros dbDiary e = Macros.zero)) :=
  ⟨⟨by decide, by decide, by decide⟩,
   daily_totals_spec dbDiary 1 0 (by decide) (by decide) (by decide)⟩

/-- C2: for every food and positive quantity, calculate_entry_macros(F, q)
equals q times calculate_entry_macros(F, 1) elementwise, the calories
component being additionally truncated to an integer; the three gram
components scale exactly. -/
theorem entry_macros_scale (F : Food) (q : ℚ) (hq : 0 < q) :
    calculate_entry_macros F q =
      { calories := pyInt (q * ((calculate_entry_macros F 1).calories : ℚ))
      , protein_g := q * (calculate_entry_macros F 1).protein_g
      , carbs_g := q * (calculate_entry_macros F 1).carbs_g
      , fat_g := q * (calculate_entry_macros F 1).fat_g } := by
  have h1 : calculate_entry_macros F 1
      = ⟨F.calories, F.protein_g, F.carbs_g, F.fat_g⟩ := by
    simp [calculate_entry_macros, pyInt_intCast]
  rw [h1]
  simp [calculate_entry_macros, mul_comm]

theorem entry_macros_scale_witness :
    (0 < (3/2 : ℚ))
    ∧ calculate_entry_macros foodEgg (3/2) =
      { calories := pyInt ((3/2 : ℚ) * ((calculate_entry_macros foodEgg 1).calories : ℚ))
      , protein_g := (3/2 : ℚ) * (calculate_entry_macros foodEgg 1).protein_g
      , carbs_g := (3/2 : ℚ) * (calculate_entry_macros foodEgg 1).carbs_g
      , fat_g := (3/2 : ℚ) * (calculate_entry_macros foodEgg 1).fat_g } :=
  ⟨by norm_num, entry_macros_scale foodEgg (3/2) (by norm_num)⟩

theorem mealTotalsAddZero (a : MealTotals) : MealTotals.add a MealTotals.zero = a := by
  cases a; simp [MealTotals.add, MealTotals.zero]

theorem mealTotalsZeroAdd (a : MealTotals) : MealTotals.add MealTotals.zero a = a := by
  cases a; simp [MealTotals.add, MealTotals.zero]

theorem mealTotalsAddAssoc (a b c : MealTotals) :
    MealTotals.add (MealTotals.add a b) c = MealTotals.add a (MealTotals.add b c) := by
  cases a; cases b; cases c
  simp only [MealTotals.add, MealTotals.mk.injEq]
  exact ⟨by ring, by ring, by ring, by ring⟩

/-- C3 counterexample: on a meal holding half a serving of a 3-kcal food,
get_meal_totals returns calories 3/2, not the per-item floor 1 demanded by
the claim. -/
theorem meal_totals_not_floored_per_item :
    get_meal_totals dbMeal mealSnack ≠ get_meal_totals_flooredPerItem dbMeal mealSnack := by
  simp only [get_meal_totals, get_meal_totals_flooredPerItem, dbMeal, mealSnack, fiRice,
    mealItemsOf, getFood, List.filter, List.find?, List.foldl, MealTotals.zero,
    Rat.mkRat_eq_div]
  norm_num [Food.calories, Int.floor_eq_iff]

/-- C3 (amended): get_meal_totals returns the elementwise sum, over the
meal's items whose food still resolves, of the food's per-serving values
times the item quantity; the calories contribution of an item is the
unrounded product food.calories * quantity (truncation to an integer
happens only at the API response layer, and only on the final sum); items
whose food no longer resolves contribute exactly zero. -/
theorem meal_totals_eq_sum (db : DB) (meal : CustomMeal) :
    get_meal_totals db meal
        = sumMealTotals ((mealItemsOf db meal).map (mealItemMacros db))
    ∧ (∀ it : CustomMealItem, getFood db it.food_id = none →
        mealItemMacros db it = MealTotals.zero) := by
  constructor
  · have step : ∀ (init : MealTotals) (l : List CustomMealItem),
        l.foldl
          (fun totals it =>
            match getFood db it.food_id with
            | none => totals
            | some food =>
              { calories := totals.calories + (food.calories : ℚ) * it.quantity
              , protein_g := totals.protein_g + food.protein_g * it.quantity
              , carbs_g := totals.carbs_g + food.carbs_g * it.quantity
              , fat_g := totals.fat_g + food.fat_g * it.quantity })
          init = MealTotals.add init (sumMealTotals (l.map (mealItemMacros db))) := by
      intro init l
      induction l generalizing init with
      | nil => simp [sumMealTotals, mealTotalsAddZero]
      | cons it t ih =>
        have hstep :
            (match getFood db it.food_id with
              | none => init
              | some food =>
                { calories := init.calories + (food.calories : ℚ) * it.quantity
                , protein_g := init.protein_g + food.protein_g * it.quantity
                , carbs_g := init.carbs_g + food.carbs_g * it.quantity
                , fat_g := init.fat_g + food.fat_g * it.quantity } : MealTotals)
              = MealTotals.add init (mealItemMacros db it) := by
          cases hf : getFood db it.food_id with
          | none => simp [mealItemMacros, hf, mealTotalsAddZero]
          | some food => simp [mealItemMacros, hf, MealTotals.add]
        simp only [List.foldl_cons, List.map_cons, sumMealTotals, List.foldr_cons, hstep]
        rw [ih]
        simp [sumMealTotals, mealTotalsAddAssoc]
    simpa [get_meal_totals, mealTotalsZeroAdd] using
      step MealTotals.zero (mealItemsOf db meal)
  · intro it hf
    simp [mealItemMacros, hf]

theorem mem_insertLe {α} (le : α → α → Bool) (a : α) (l : List α) (b : α) :
    b ∈ insertLe le a l ↔ b = a ∨ b ∈ l := by
  induction l with
  | nil => simp [insertLe]
  | cons c t ih =>
    unfold insertLe
    by_cases h : le a c
    · rw [if_pos h]
      simp
    · rw [if_neg h]
      simp only [List.mem_cons, ih]
      tauto

theorem mem_sortLe {α} (le : α → α → Bool) (l : List α) (a : α) :
    a ∈ sortLe le l ↔ a ∈ l := by
  induction l with
  | nil => simp [sortLe]
  | cons c t ih =>
    simp only [sortLe, List.foldr_cons, List.mem_cons]
    rw [mem_insertLe]
    simp only [sortLe] at ih
    rw [ih]

theorem toFinset_card_eq_length_iff {α} [DecidableEq α] (l : List α) :
    l.toFinset.card = l.length ↔ l.Nodup := by
  constructor
  · intro h
    rw [List.card_toFinset] at h
    have hded : l.dedup = l := (List.dedup_sublist l).eq_of_length h
    rw [← hded]
    exact List.nodup_dedup l
  · exact List.toFinset_card_of_nodup

/-- The id set of the caller's categories is unaffected by the
display_order sort of get_categories. -/
theorem get_categories_id_toFinset (db : DB) (user_id : Nat) :
    ((get_categories db user_id).map (fun c => c.id)).toFinset
      = ((db.categories.filter (fun c => c.user_id == user_id)).map (fun c => c.id)).toFinset := by
  ext x
  simp [get_categories, mem_sortLe, List.mem_toFinset, List.mem_map]

/-- C5: reorder_categories succeeds exactly when the provided id list is a
duplicate-free enumeration of the caller's existing category id set; on
success every category of the caller has display_order equal to the
1-based position of its id in the list, and other users' rows are
untouched; on failure (both raises happen before any mutation) the state
is unchanged. -/
theorem reorder_categories_spec (db : DB) (user_id : Nat) (ids : List Nat) :
    ((reorder_categories db user_id ids).1 = Except.ok () ↔
      ids.toFinset
          = ((db.categories.filter (fun c => c.user_id == user_id)).map (fun c => c.id)).toFinset
        ∧ ids.Nodup)
    ∧ (∀ err, (reorder_categories db user_id ids).1 = Except.error err →
        (reorder_categories db user_id ids).2 = db)
    ∧ ((reorder_categories db user_id ids).1 = Except.ok () →
        (∀ c2 ∈ (reorder_categories db user_id ids).2.categories,
          (c2.user_id = user_id → c2.display_order = (ids.indexOf c2.id : ℤ) + 1)
          ∧ (c2.user_id ≠ user_id → c2 ∈ db.categories))
        ∧ ∀ c ∈ db.categories, c.user_id ≠ user_id →
            c ∈ (reorder_categories db user_id ids).2.categories) := by
  have hset := get_categories_id_toFinset db user_id
  by_cases h1 : ids.toFinset = ((get_categories db user_id).map (fun c => c.id)).toFinset
  · by_cases h2 : ids.length = ids.toFinset.card
    · have hres : reorder_categories db user_id ids
          = (Except.ok (),
            { db with categories := db.categories.map (fun c =>
                if c.user_id == user_id then
                  { c with display_order := (ids.indexOf c.id : ℤ) + 1 }
                else c) }) := by
        unfold reorder_categories
        rw [if_neg (fun hne => hne h1), if_neg (fun hne => hne h2)]
      refine ⟨?_, ?_, ?_⟩
      · rw [hres]
        simp only [true_iff]
        exact ⟨h1.trans hset, (toFinset_card_eq_length_iff ids).mp h2.symm⟩
      · intro err herr; rw [hres] at herr; simp at herr
      · intro _
        constructor
        · intro c2 hc2
          rw [hres] at hc2
          simp only [List.mem_map] at hc2
          obtain ⟨c, hc, rfl⟩ := hc2
          by_cases hu : c.user_id = user_id
          · constructor
            · intro _
              simp [hu]
            · intro habs
              exfalso
              apply habs
              simp [hu]
          · constructor
            · intro habs
              simp [hu] at habs
            · intro _
              simpa [hu] using hc
        · intro c hc hcu
          rw [hres]
          simp only [List.mem_map]
          exact ⟨c, hc, by simp [hcu]⟩
    · have hres : reorder_categories db user_id ids = (Except.error ApiError.invalidInput, db) := by
        unfold reorder_categories
        rw [if_neg (fun hne => hne h1), if_pos h2]
      refine ⟨?_, ?_, ?_⟩
      · rw [hres]
        constructor
        · intro h; simp at h
        · rintro ⟨_, hnd⟩
          exact (h2 ((toFinset_card_eq_length_iff ids).mpr hnd).symm).elim
      · intro err _; rw [hres]
      · intro hok; rw [hres] at hok; simp at hok
  · have hres : reorder_categories db user_id ids = (Except.error ApiError.invalidInput, db) := by
      unfold reorder_categories
      rw [if_pos h1]
    refine ⟨?_, ?_, ?_⟩
    · rw [hres]
      constructor
      · intro h; simp at h
      · rintro ⟨hEq, _⟩
        exact (h1 (hEq.trans hset.symm)).elim
    · intro err _; rw [hres]
    · intro hok; rw [hres] at hok; simp at hok

theorem reorder_categories_spec_witness :
    ((reorder_categories dbCats 1 [11, 10]).1 = Except.ok () ↔
      ([11, 10] : List Nat).toFinset
          = ((dbCats.categories.filter (fun c => c.user_id == 1)).map (fun c => c.id)).toFinset
        ∧ ([11, 10] : List Nat).Nodup)
    ∧ (∀ err, (reorder_categories dbCats 1 [11, 10]).1 = Except.error err →
        (reorder_categories dbCats 1 [11, 10]).2 = dbCats)
    ∧ ((reorder_categories dbCats 1 [11, 10]).1 = Except.ok () →
        (∀ c2 ∈ (reorder_categories dbCats 1 [11, 10]).2.categories,
          (c2.user_id = 1 → c2.display_order = (([11, 10] : List Nat).indexOf c2.id : ℤ) + 1)
          ∧ (c2.user_id ≠ 1 → c2 ∈ dbCats.categories))
        ∧ ∀ c ∈ dbCats.categories, c.user_id ≠ 1 →
            c ∈ (reorder_categories dbCats 1 [11, 10]).2.categories) :=
  reorder_categories_spec dbCats 1 [11, 10]

/-- C6: for a category owned by the caller, delete_category answers
Conflict whenever the category has at least one diary entry — also when
the category is a default one, so the dependents check precedes
default-protection — and answers Forbidden on a default category with
zero entries; both failures leave the database unchanged. -/
theorem delete_category_spec (db : DB) (user_id category_id : Nat)
    (category : MealCategory)
    (hcat : get_category db user_id category_id = some category) :
    (0 < categoryEntryCount db category_id →
      delete_category db user_id category_id = (Except.error ApiError.conflict, db))
    ∧ (categoryEntryCount db category_id = 0 → category.is_default = true →
      delete_category db user_id category_id = (Except.error ApiError.forbidden, db)) := by
  constructor
  · intro h
    unfold delete_category
    rw [hcat]
    simp [h]
  · intro h hdef
    unfold delete_category
    rw [hcat]
    simp [h, hdef]

theorem delete_category_spec_witness :
    get_category dbCats 1 10 = some ⟨10, 1, "Breakfast", 1, true⟩
    ∧ ((0 < categoryEntryCount dbCats 10 →
        delete_category dbCats 1 10 = (Except.error ApiError.conflict, dbCats))
      ∧ (categoryEntryCount dbCats 10 = 0 → (true : Bool) = true →
        delete_category dbCats 1 10 = (Except.error ApiError.forbidden, dbCats))) :=
  ⟨by decide, delete_category_spec dbCats 1 10 ⟨10, 1, "Breakfast", 1, true⟩ (by decide)⟩

/-- C7: add_entry rejects a non-positive quantity and an entry date more
than 365 days after today as invalid input; it answers NotFound when no
category row has the given id and owner, and NotFound when the food id
resolves in neither food table; when every check passes it appends exactly
one diary entry carrying the given user, date, category, food and
quantity; every failure leaves the database unchanged (each raise in the
source precedes the insert). -/
theorem add_entry_spec (db : DB) (today : ℤ) (user_id : Nat) (entry_date : ℤ)
    (category_id food_id : Nat) (quantity : ℚ) :
    (quantity ≤ 0 →
      add_entry db today user_id entry_date category_id food_id quantity
        = (Except.error ApiError.invalidInput, db))
    ∧ (0 < quantity → today + 365 < entry_date →
      add_entry db today user_id entry_date category_id food_id quantity
        = (Except.error ApiError.invalidInput, db))
    ∧ (0 < quantity → entry_date ≤ today + 365 →
      db.categories.find? (fun c => c.id == category_id && c.user_id == user_id) = none →
      add_entry db today user_id entry_date category_id food_id quantity
        = (Except.error ApiError.notFound, db))
    ∧ (∀ cat, 0 < quantity → entry_date ≤ today + 365 →
      db.categories.find? (fun c => c.id == category_id && c.user_id == user_id) = some cat →
      getFood db food_id = none →
      add_entry db today user_id entry_date category_id food_id quantity
        = (Except.error ApiError.notFound, db))
    ∧ (∀ cat food, 0 < quantity → entry_date ≤ today + 365 →
      db.categories.find? (fun c => c.id == category_id && c.user_id == user_id) = some cat →
      getFood db food_id = some food →
      add_entry db today user_id entry_date category_id food_id quantity
        = (Except.ok ⟨db.nextId, user_id, category_id, food_id, entry_date, quantity⟩,
           { db with
             entries := db.entries ++
               [⟨db.nextId, user_id, category_id, food_id, entry_date, quantity⟩]
           , nextId := db.nextId + 1 })) := by
  refine ⟨?_, ?_, ?_, ?_, ?_⟩
  · intro h
    have hv : validate_quantity quantity = false :=
      decide_eq_false (not_lt.mpr h)
    simp [add_entry, hv]
  · intro hq hd
    have hv : validate_quantity quantity = true := decide_eq_true hq
    have hvd : validate_entry_date today entry_date = false :=
      decide_eq_false (not_le.mpr hd)
    simp [add_entry, hv, hvd]
  · intro hq hd hfind
    have hv : validate_quantity quantity = true := decide_eq_true hq
    have hvd : validate_entry_date today entry_date = true := decide_eq_true hd
    simp [add_entry, hv, hvd, hfind]
  · intro cat hq hd hfind hfood
    have hv : validate_quantity quantity = true := decide_eq_true hq
    have hvd : validate_entry_date today entry_date = true := decide_eq_true hd
    simp [add_entry, hv, hvd, hfind, hfood]
  · intro cat food hq hd hfind hfood
    have hv : validate_quantity quantity = true := decide_eq_true hq
    have hvd : validate_entry_date today entry_date = true := decide_eq_true hd
    simp [add_entry, hv, hvd, hfind, hfood]

theorem add_entry_spec_witness :
    ((0 : ℚ) < 2 ∧ (5 : ℤ) ≤ 0 + 365
      ∧ dbDiary.categories.find? (fun c => c.id == 10 && c.user_id == 1)
          = some ⟨10, 1, "Breakfast", 1, true⟩
      ∧ getFood dbDiary 1 = some (Food.custom cfOats))
    ∧ add_entry dbDiary 0 1 5 10 1 2
        = (Except.ok ⟨dbDiary.nextId, 1, 10, 1, 5, 2⟩,
           { dbDiary with
             entries := dbDiary.entries ++ [⟨dbDiary.nextId, 1, 10, 1, 5, 2⟩]
           , nextId := dbDiary.nextId + 1 }) :=
  ⟨⟨by decide, by decide, by decide, by decide⟩,
   (add_entry_spec dbDiary 0 1 5 10 1 2).2.2.2.2
     ⟨10, 1, "Breakfast", 1, true⟩ (Food.custom cfOats)
     (by decide) (by decide) (by decide) (by decide)⟩

/-- C8: a successful registration appends exactly three meal categories
for the fresh user — Breakfast, Lunch and Dinner with display_order 1, 2
and 3, each flagged is_default — and no other category rows; provided the
fresh user id owns no pre-existing category (ids generated by DB.nextId
are never reused), the new user's categories are exactly those three. -/
theorem register_spec (db : DB) (hash : String → String) (email password : String)
    (db2 : DB) (uid : Nat)
    (hreg : register db hash email password = Except.ok (db2, uid))
    (hfresh : ∀ c ∈ db.categories, c.user_id ≠ db.nextId) :
    uid = db.nextId
    ∧ db2.categories
        = db.categories ++
          [⟨db.nextId + 1, uid, "Breakfast", 1, true⟩,
           ⟨db.nextId + 2, uid, "Lunch", 2, true⟩,
           ⟨db.nextId + 3, uid, "Dinner", 3, true⟩]
    ∧ db2.categories.filter (fun c => c.user_id == uid)
        = [⟨db.nextId + 1, uid, "Breakfast", 1, true⟩,
           ⟨db.nextId + 2, uid, "Lunch", 2, true⟩,
           ⟨db.nextId + 3, uid, "Dinner", 3, true⟩] := by
  unfold register at hreg
  cases hu : get_user_by_email db (strTrim (strLower email)) with
  | some u => simp [hu] at hreg
  | none =>
    cases hv : validate_password password with
    | false => simp [hu, hv] at hreg
    | true =>
      simp only [hu, hv, Bool.not_true, Bool.false_eq_true, if_false, Except.ok.injEq,
        Prod.mk.injEq] at hreg
      obtain ⟨hdb2, rfl⟩ := hreg
      have h12 : db.nextId + 1 + 1 = db.nextId + 2 := by omega
      have h13 : db.nextId + 1 + 2 = db.nextId + 3 := by omega
      have hcats : db2.categories
          = db.categories ++
            [⟨db.nextId + 1, db.nextId, "Breakfast", 1, true⟩,
             ⟨db.nextId + 2, db.nextId, "Lunch", 2, true⟩,
             ⟨db.nextId + 3, db.nextId, "Dinner", 3, true⟩] := by
        rw [← hdb2]
        simp [create_default_categories, h12, h13]
      refine ⟨rfl, hcats, ?_⟩
      rw [hcats, List.filter_append]
      have hnil : db.categories.filter (fun c => c.user_id == db.nextId) = [] := by
        rw [List.filter_eq_nil_iff]
        intro c hc
        simpa using hfresh c hc
      rw [hnil]
      simp

theorem register_spec_witness :
    (register dbReg (fun p => p) "a@x.com" "abcd1234"
        = Except.ok
          ({ users := [⟨1, "a@x.com", "abcd1234", false⟩]
           , categories := [⟨2, 1, "Breakfast", 1, true⟩, ⟨3, 1, "Lunch", 2, true⟩,
                            ⟨4, 1, "Dinner", 3, true⟩]
           , customFoods := [], foodItems := [], entries := [], meals := []
           , mealItems := [], goals := [], nextId := 5 }, 1)
      ∧ (∀ c ∈ dbReg.categories, c.user_id ≠ dbReg.nextId))
    ∧ (1 = dbReg.nextId
      ∧ ({ users := [⟨1, "a@x.com", "abcd1234", false⟩]
         , categories := [⟨2, 1, "Breakfast", 1, true⟩, ⟨3, 1, "Lunch", 2, true⟩,
                          ⟨4, 1, "Dinner", 3, true⟩]
         , customFoods := [], foodItems := [], entries := [], meals := []
         , mealItems := [], goals := [], nextId := 5 } : DB).categories
          = dbReg.categories ++
            [⟨dbReg.nextId + 1, 1, "Breakfast", 1, true⟩,
             ⟨dbReg.nextId + 2, 1, "Lunch", 2, true⟩,
             ⟨dbReg.nextId + 3, 1, "Dinner", 3, true⟩]
      ∧ ({ users := [⟨1, "a@x.com", "abcd1234", false⟩]
         , categories := [⟨2, 1, "Breakfast", 1, true⟩, ⟨3, 1, "Lunch", 2, true⟩,
                          ⟨4, 1, "Dinner", 3, true⟩]
         , customFoods := [], foodItems := [], entries := [], meals := []
         , mealItems := [], goals := [], nextId := 5 } : DB).categories.filter
            (fun c => c.user_id == 1)
          = [⟨dbReg.nextId + 1, 1, "Breakfast", 1, true⟩,
             ⟨dbReg.nextId + 2, 1, "Lunch", 2, true⟩,
             ⟨dbReg.nextId + 3, 1, "Dinner", 3, true⟩]) :=
  ⟨⟨rfl, by decide⟩,
   register_spec dbReg (fun p => p) "a@x.com" "abcd1234" _ 1 rfl (by decide)⟩

/-- Under unique meal ids, the find? of get_custom_meal returns exactly
the live meal row of the caller. -/
theorem get_custom_meal_eq_some (db : DB) (user_id : Nat) (m : CustomMeal)
    (hm : m ∈ db.meals) (huser : m.user_id = user_id) (hdel : m.is_deleted = false)
    (hnd : (db.meals.map (fun x => x.id)).Nodup) :
    get_custom_meal db user_id m.id = some m := by
  unfold get_custom_meal
  have main : ∀ l : List CustomMeal, m ∈ l → ((l.map (fun x => x.id)).Nodup) →
      l.find? (fun x => x.id == m.id && x.user_id == user_id && !x.is_deleted) = some m := by
    intro l
    induction l with
    | nil => intro h; simp at h
    | cons x t ih =>
      intro hmem hnd2
      simp only [List.map_cons, List.nodup_cons] at hnd2
      rcases List.mem_cons.mp hmem with heq | hmt
      · subst heq
        simp [List.find?, huser, hdel]
      · have hxid : ¬ x.id = m.id := by
          intro habs
          exact hnd2.1 (habs ▸ List.mem_map_of_mem (fun y => y.id) hmt)
        have hpred : (x.id == m.id && x.user_id == user_id && !x.is_deleted) = false := by
          simp [hxid]
        rw [List.find?]
        rw [hpred]
        exact ih hmt hnd2.2
  exact main db.meals hm hnd

/-- C9: delete_custom_meal on a live meal owned by the caller flips only
that meal's is_deleted flag: afterwards the meal is invisible to
get_custom_meal and to the visible get_custom_meals listing, while the
meal row is otherwise unchanged, other meal rows, the CustomMealItem rows,
the diary entries and both food tables are untouched, and every diary
read — daily totals and the whole get_diary view — is unchanged. -/
theorem delete_custom_meal_spec (db : DB) (user_id : Nat) (m : CustomMeal)
    (hm : m ∈ db.meals) (huser : m.user_id = user_id) (hdel : m.is_deleted = false)
    (hnd : (db.meals.map (fun x => x.id)).Nodup) :
    (delete_custom_meal db user_id m.id).1 = true
    ∧ (delete_custom_meal db user_id m.id).2.meals
        = db.meals.map (fun x => if x.id == m.id then { x with is_deleted := true } else x)
    ∧ { m with is_deleted := true } ∈ (delete_custom_meal db user_id m.id).2.meals
    ∧ (∀ x ∈ db.meals, x.id ≠ m.id → x ∈ (delete_custom_meal db user_id m.id).2.meals)
    ∧ get_custom_meal (delete_custom_meal db user_id m.id).2 user_id m.id = none
    ∧ (∀ x ∈ get_custom_meals (delete_custom_meal db user_id m.id).2 user_id false,
        x.id ≠ m.id)
    ∧ (delete_custom_meal db user_id m.id).2.mealItems = db.mealItems
    ∧ (delete_custom_meal db user_id m.id).2.entries = db.entries
    ∧ (delete_custom_meal db user_id m.id).2.customFoods = db.customFoods
    ∧ (delete_custom_meal db user_id m.id).2.foodItems = db.foodItems
    ∧ (∀ entries, calculate_daily_totals (delete_custom_meal db user_id m.id).2 entries
        = calculate_daily_totals db entries)
    ∧ (∀ uid2 d, get_diary (delete_custom_meal db user_id m.id).2 uid2 d
        = get_diary db uid2 d) := by
  have hfind := get_custom_meal_eq_some db user_id m hm huser hdel hnd
  have hres : delete_custom_meal db user_id m.id
      = (true, { db with meals := db.meals.map (fun x =>
          if x.id == m.id then { x with is_deleted := true } else x) }) := by
    unfold delete_custom_meal
    rw [hfind]
  refine ⟨by rw [hres], by rw [hres], ?_, ?_, ?_, ?_,
          by rw [hres], by rw [hres], by rw [hres], by rw [hres],
          fun entries => by rw [hres]; exact rfl,
          fun uid2 d => by rw [hres]; exact rfl⟩
  · rw [hres]
    simp only [List.mem_map]
    exact ⟨m, hm, by simp⟩
  · intro x hx hxid
    rw [hres]
    simp only [List.mem_map]
    exact ⟨x, hx, by simp [hxid]⟩
  · rw [hres]
    unfold get_custom_meal
    rw [List.find?_eq_none]
    intro x2 hx2
    simp only [List.mem_map] at hx2
    obtain ⟨x, hx, rfl⟩ := hx2
    by_cases hxid : x.id = m.id
    · simp [hxid]
    · simp [hxid]
  · intro x hx
    rw [hres] at hx
    simp [get_custom_meals, mem_sortLe, List.mem_filter] at hx
    obtain ⟨⟨y, hy, hfx⟩, hxprops⟩ := hx
    subst hfx
    by_cases hyid : y.id = m.id
    · exfalso
      simp [hyid] at hxprops
    · simp [hyid]

theorem delete_custom_meal_spec_witness :
    (mealSnack ∈ dbMeal.meals ∧ mealSnack.user_id = 1 ∧ mealSnack.is_deleted = false
      ∧ (dbMeal.meals.map (fun x => x.id)).Nodup)
    ∧ ((delete_custom_meal dbMeal 1 mealSnack.id).1 = true
      ∧ (delete_custom_meal dbMeal 1 mealSnack.id).2.meals
          = dbMeal.meals.map (fun x =>
              if x.id == mealSnack.id then { x with is_deleted := true } else x)
      ∧ { mealSnack with is_deleted := true }
          ∈ (delete_custom_meal dbMeal 1 mealSnack.id).2.meals
      ∧ (∀ x ∈ dbMeal.meals, x.id ≠ mealSnack.id →
          x ∈ (delete_custom_meal dbMeal 1 mealSnack.id).2.meals)
      ∧ get_custom_meal (delete_custom_meal dbMeal 1 mealSnack.id).2 1 mealSnack.id = none
      ∧ (∀ x ∈ get_custom_meals (delete_custom_meal dbMeal 1 mealSnack.id).2 1 false,
          x.id ≠ mealSnack.id)
      ∧ (delete_custom_meal dbMeal 1 mealSnack.id).2.mealItems = dbMeal.mealItems
      ∧ (delete_custom_meal dbMeal 1 mealSnack.id).2.entries = dbMeal.entries
      ∧ (delete_custom_meal dbMeal 1 mealSnack.id).2.customFoods = dbMeal.customFoods
      ∧ (delete_custom_meal dbMeal 1 mealSnack.id).2.foodItems = dbMeal.foodItems
      ∧ (∀ entries, calculate_daily_totals (delete_custom_meal dbMeal 1 mealSnack.id).2 entries
          = calculate_daily_totals dbMeal entries)
      ∧ (∀ uid2 d, get_diary (delete_custom_meal dbMeal 1 mealSnack.id).2 uid2 d
          = get_diary dbMeal uid2 d)) :=
  ⟨⟨by decide, by decide, by decide, by decide⟩,
   delete_custom_meal_spec dbMeal 1 mealSnack (by decide) (by decide) (by decide) (by decide)⟩

/-- Looking up the key just stored answers the stored value. -/
theorem cacheLookup_store_self (cache : SearchCache) (k : String)
    (v : List FoodSearchResult × Nat) :
    cacheLookup (cacheStore cache k v) k = some v := by
  simp [cacheLookup, cacheStore, List.find?]

/-- The uncached result list is the custom block followed by the usda
block. -/
theorem searchUncached_eq (db : DB) (usda : String → Nat → Option (List UsdaFood))
    (query : String) (uid : Nat) (limit : Nat) :
    searchUncached db usda query (some uid) limit
      = (search_custom_foods db uid query).map mkCustomResult
        ++ (match usda query limit with
            | some fs => fs.map mkUsdaResult
            | none => []) := rfl

/-- Membership in search_custom_foods implies a custom-food row of that
user. -/
theorem mem_search_custom_foods {db : DB} {uid : Nat} {query : String}
    {cf : CustomFood} (h : cf ∈ search_custom_foods db uid query) :
    cf ∈ db.customFoods ∧ cf.user_id = uid := by
  by_cases hq : ((strTrim query).length == 0) = true
  · simp [search_custom_foods, hq] at h
  · simp only [search_custom_foods, hq, Bool.false_eq_true, if_false, mem_sortLe] at h
    obtain ⟨hmem, hp⟩ := List.mem_filter.mp h
    simp only [Bool.and_eq_true, beq_iff_eq] at hp
    exact ⟨hmem, hp.1⟩

/-- C4 at the failing input: with two matching custom foods, two external
rows and limit 3, the first (cache-miss) call returns 3 results, but the
second call inside the TTL answers the cached untruncated list of 4 —
the cache-hit path skips the truncation to limit. -/
theorem search_cache_skips_truncation :
    (search dbSearch usdaTwo ([] : SearchCache) 0 "Apple" (some 1) 3).1.length = 3
    ∧ (search dbSearch usdaTwo
        (search dbSearch usdaTwo ([] : SearchCache) 0 "Apple" (some 1) 3).2
        60 "Apple" (some 1) 3).1
      = searchUncached dbSearch usdaTwo "Apple" (some 1) 3
    ∧ (search dbSearch usdaTwo
        (search dbSearch usdaTwo ([] : SearchCache) 0 "Apple" (some 1) 3).2
        60 "Apple" (some 1) 3).1.length = 4 := by
  refine ⟨by decide, by decide, by decide⟩

/-- C10: a second search call with the same lowercased query and the same
limit, inside the 15-minute TTL, answers the first call's cached
untruncated list no matter which user (or database state) makes it: the
first caller's matching custom foods all appear in the second caller's
results, every custom-sourced row comes from the first call's database and
user, and any custom food of the second caller whose row differs from all
of the first database's rows is absent. -/
theorem search_cache_cross_user (db1 db2 : DB)
    (usda1 usda2 : String → Nat → Option (List UsdaFood))
    (t1 t2 : Nat) (q1 q2 : String) (a b : Nat) (limit : Nat)
    (hq1 : ¬ (strTrim q1).length = 0)
    (hq2 : ¬ (strTrim q2).length = 0)
    (hlow : strLower q2 = strLower q1)
    (ht : t2 - t1 < cache_ttl) :
    (search db2 usda2 (search db1 usda1 ([] : SearchCache) t1 q1 (some a) limit).2
        t2 q2 (some b) limit).1
      = searchUncached db1 usda1 q1 (some a) limit
    ∧ (∀ cf ∈ search_custom_foods db1 a q1,
        mkCustomResult cf
          ∈ (search db2 usda2 (search db1 usda1 ([] : SearchCache) t1 q1 (some a) limit).2
              t2 q2 (some b) limit).1)
    ∧ (∀ r ∈ (search db2 usda2 (search db1 usda1 ([] : SearchCache) t1 q1 (some a) limit).2
          t2 q2 (some b) limit).1, r.source = "custom" →
        ∃ cf ∈ db1.customFoods, cf.user_id = a ∧ r = mkCustomResult cf)
    ∧ (∀ cf2 ∈ search_custom_foods db2 b q2,
        (∀ cf1 ∈ db1.customFoods, mkCustomResult cf1 ≠ mkCustomResult cf2) →
        mkCustomResult cf2
          ∉ (search db2 usda2 (search db1 usda1 ([] : SearchCache) t1 q1 (some a) limit).2
              t2 q2 (some b) limit).1) := by
  have hb1 : ¬ ((strTrim q1).length == 0) = true := by simpa using hq1
  have hb2 : ¬ ((strTrim q2).length == 0) = true := by simpa using hq2
  have e1 : search db1 usda1 ([] : SearchCache) t1 q1 (some a) limit
      = ((searchUncached db1 usda1 q1 (some a) limit).take limit,
         cacheStore ([] : SearchCache) (strLower q1 ++ ":" ++ toString limit)
           (searchUncached db1 usda1 q1 (some a) limit, t1)) := by
    unfold search
    rw [if_neg hb1]
    rfl
  have e2 : search db2 usda2
      (cacheStore ([] : SearchCache) (strLower q1 ++ ":" ++ toString limit)
        (searchUncached db1 usda1 q1 (some a) limit, t1)) t2 q2 (some b) limit
      = (searchUncached db1 usda1 q1 (some a) limit,
         cacheStore ([] : SearchCache) (strLower q1 ++ ":" ++ toString limit)
           (searchUncached db1 usda1 q1 (some a) limit, t1)) := by
    unfold search
    rw [if_neg hb2]
    have hkey : strLower q2 ++ ":" ++ toString limit
        = strLower q1 ++ ":" ++ toString limit := by rw [hlow]
    rw [hkey]
    simp only [cacheLookup_store_self]
    simp [ht]
  have hfst : (search db2 usda2
      (search db1 usda1 ([] : SearchCache) t1 q1 (some a) limit).2
      t2 q2 (some b) limit).1
      = searchUncached db1 usda1 q1 (some a) limit := by
    rw [e1]
    rw [e2]
  refine ⟨hfst, ?_, ?_, ?_⟩
  · intro cf hcf
    rw [hfst, searchUncached_eq]
    exact List.mem_append_left _ (List.mem_map_of_mem mkCustomResult hcf)
  · intro r hr hsrc
    rw [hfst, searchUncached_eq] at hr
    rcases List.mem_append.mp hr with hcust | husda
    · obtain ⟨cf, hcf, rfl⟩ := List.mem_map.mp hcust
      obtain ⟨hmem, huser⟩ := mem_search_custom_foods hcf
      exact ⟨cf, hmem, huser, rfl⟩
    · exfalso
      cases hu : usda1 q1 limit with
      | none => rw [hu] at husda; simp at husda
      | some fs =>
        rw [hu] at husda
        obtain ⟨f, _, rfl⟩ := List.mem_map.mp husda
        simp [mkUsdaResult] at hsrc
  · intro cf2 hcf2 hne habs
    have h3 : ∃ cf ∈ db1.customFoods, cf.user_id = a
        ∧ mkCustomResult cf2 = mkCustomResult cf := by
      rw [hfst, searchUncached_eq] at habs
      rcases List.mem_append.mp habs with hcust | husda
      · obtain ⟨cf, hcf, hEq⟩ := List.mem_map.mp hcust
        obtain ⟨hmem, huser⟩ := mem_search_custom_foods hcf
        exact ⟨cf, hmem, huser, hEq.symm⟩
      · exfalso
        cases hu : usda1 q1 limit with
        | none => rw [hu] at husda; simp at husda
        | some fs =>
          rw [hu] at husda
          obtain ⟨f, _, hEq⟩ := List.mem_map.mp husda
          have : (mkUsdaResult f).source = (mkCustomResult cf2).source := by rw [hEq]
          simp [mkUsdaResult, mkCustomResult] at this
    obtain ⟨cf1, hmem1, _, hEq⟩ := h3
    exact hne cf1 hmem1 hEq.symm

theorem search_cache_cross_user_witness :
    (¬ (strTrim "Apple").length = 0 ∧ ¬ (strTrim "apple").length = 0
      ∧ strLower "apple" = strLower "Apple" ∧ 60 - 0 < cache_ttl)
    ∧ ((search dbSearch usdaTwo
          (search dbSearch usdaTwo ([] : SearchCache) 0 "Apple" (some 1) 3).2
          60 "apple" (some 2) 3).1
        = searchUncached dbSearch usdaTwo "Apple" (some 1) 3
      ∧ (∀ cf ∈ search_custom_foods dbSearch 1 "Apple",
          mkCustomResult cf
            ∈ (search dbSearch usdaTwo
                (search dbSearch usdaTwo ([] : SearchCache) 0 "Apple" (some 1) 3).2
                60 "apple" (some 2) 3).1)
      ∧ (∀ r ∈ (search dbSearch usdaTwo
            (search dbSearch usdaTwo ([] : SearchCache) 0 "Apple" (some 1) 3).2
            60 "apple" (some 2) 3).1, r.source = "custom" →
          ∃ cf ∈ dbSearch.customFoods, cf.user_id = 1 ∧ r = mkCustomResult cf)
      ∧ (∀ cf2 ∈ search_custom_foods dbSearch 2 "apple",
          (∀ cf1 ∈ dbSearch.customFoods, mkCustomResult cf1 ≠ mkCustomResult cf2) →
          mkCustomResult cf2
            ∉ (search dbSearch usdaTwo
                (search dbSearch usdaTwo ([] : SearchCache) 0 "Apple" (some 1) 3).2
                60 "apple" (some 2) 3).1)) :=
  ⟨⟨by decide, by decide, by decide, by decide⟩,
   search_cache_cross_user dbSearch dbSearch usdaTwo usdaTwo 0 60 "Apple" "apple" 1 2 3
     (by decide) (by decide) (by decide) (by decide)⟩

end Macrometric
